import Mathlib

/-!
Verification of a TypeScript dependency-injection container
(`src/dependencyInjection/index.ts`).

The embedding mirrors the source:

* `Container` holds `private services = new Map()`; `register` is `Map.set`
  and `resolve` is `Map.get` followed by a truthiness test (`if (!service)`)
  that throws `Service not found for token: ${token}`.
* `Injectable` constructs one instance with the zero-argument constructor and
  registers it under the class's own identity.
* `Inject(token)` is a property-decorator factory: at class-body evaluation it
  resolves `token` eagerly and installs a constant getter for the resolved
  instance via `Object.defineProperty`.
* The demo program (config service, three loggers, logger factory, user
  service, `Main`) is embedded separately with its registration order.

JavaScript `Map` keys here are class identities (constructor functions),
compared by reference; we model them as `Nat` tokens.  A `Map` stores
arbitrary values, so the stored values are modelled by `JSValue`, which keeps
the falsy values (`undefined`, `null`, `false`, `0`, `""`) distinguishable
from object instances (`vObj id`, identified by reference id).
-/

/-- A runtime JavaScript value as far as the container can observe it:
the falsy primitives, non-falsy primitives, and objects identified by a
reference id (reference equality = equality of ids). -/
inductive JSValue where
  | vUndefined : JSValue
  | vNull : JSValue
  | vBool (b : Bool) : JSValue
  | vNum (n : Int) : JSValue
  | vStr (s : String) : JSValue
  | vObj (id : Nat) : JSValue
deriving DecidableEq, Repr

/-- JavaScript truthiness: `undefined`, `null`, `false`, `0` and `""` are
falsy; every object is truthy. -/
def JSValue.truthy : JSValue → Bool
  | .vUndefined => false
  | .vNull => false
  | .vBool b => b
  | .vNum n => n != 0
  | .vStr s => s != ""
  | .vObj _ => true

/-- A class identity (the constructor function used as a `Map` key,
compared by reference). -/
abbrev Token := Nat

/-- The container's `private services = new Map()`: an insertion-ordered
association list, as a JS `Map` is. -/
abbrev Services := List (Token × JSValue)

/-- `Map.get token`: the first (unique) entry for the key, `undefined`
(here `none`) when absent.  Polymorphic because a JS `Map` is untyped; the
container instantiates it at class-identity keys. -/
def mapGet {κ α : Type} [DecidableEq κ] : List (κ × α) → κ → Option α
  | [], _ => none
  | (k, v) :: rest, t => if k = t then some v else mapGet rest t

/-- `Map.set token instance`: replace the value of an existing key in place,
otherwise append a new entry. -/
def mapSet {κ α : Type} [DecidableEq κ] : List (κ × α) → κ → α → List (κ × α)
  | [], t, v => [(t, v)]
  | (k, w) :: rest, t, v =>
    if k = t then (t, v) :: rest else (k, w) :: mapSet rest t v

/-- `public register<T>(token, instance) { this.services.set(token, instance); }` -/
def Container.register {κ α : Type} [DecidableEq κ] (c : List (κ × α)) (token : κ)
    (inst : α) : List (κ × α) :=
  mapSet c token inst

/-- The message of the error thrown by `resolve`:
`` `Service not found for token: ${token}` ``. -/
def lookupMsg (token : Token) : String :=
  "Service not found for token: " ++ toString token

/-- `public resolve<T>(token)`:
`const service = this.services.get(token); if (!service) throw new Error(...);
return service;` — note the test is on the truthiness of the looked-up value,
with `Map.get` yielding `undefined` when the key is absent. -/
def Container.resolve (c : Services) (token : Token) : Except String JSValue :=
  let service := (mapGet c token).getD JSValue.vUndefined
  if service.truthy then Except.ok service
  else Except.error (lookupMsg token)

/-- `resolve` as a state transformer on the container's `services` map: the
method body only calls `Map.get` and never writes the map, so the carried
store is returned unchanged. -/
def Container.resolveSt (c : Services) (token : Token) :
    Except String JSValue × Services :=
  (Container.resolve c token, c)

/-- `function Injectable(BaseClassEntity) { container.register(BaseClassEntity,
new BaseClassEntity) }`, applied to the current container state.
`ctorResult` is the outcome of the single `new BaseClassEntity` evaluation;
if it throws, the exception propagates before `register` is reached.  The
final `Nat` counts constructor invocations performed by the hook. -/
def InjectableApply (c : Services) (cls : Token) (ctorResult : Except String JSValue) :
    (Except String Unit × Services) × Nat :=
  match ctorResult with
  | .error e => ((.error e, c), 1)
  | .ok inst => ((.ok (), Container.register c cls inst), 1)

/-- The getter installed by `Object.defineProperty`:  `Inject` installs
`get: () => serviceInstance`, a constant closure over the instance resolved
at decoration time.  (`resolveOnRead` is the lazy alternative the source does
not use; it lets "how many resolutions does a read perform" be stated.) -/
inductive Getter where
  | const (v : JSValue) : Getter
  | resolveOnRead (token : Token) : Getter
deriving DecidableEq, Repr

/-- The property accessor `Inject` leaves on the target: the property key and
the installed getter. -/
structure PropBinding where
  propertyKey : String
  get : Getter
deriving DecidableEq, Repr

/-- `function Inject(token) { return function(target, propertyKey) {
const serviceInstance = container.resolve(token); Object.defineProperty(...)}}`
applied to a `(target, propertyKey)` pair while the owning class body is being
evaluated.  The `Nat` counts the `resolve` calls the decoration performs. -/
def InjectApply (c : Services) (token : Token) (propertyKey : String) :
    Except String PropBinding × Nat :=
  match Container.resolve c token with
  | .error e => (.error e, 1)
  | .ok serviceInstance => (.ok ⟨propertyKey, Getter.const serviceInstance⟩, 1)

/-- One read of the decorated property: running the installed getter.
The `Nat` counts the `resolve` calls the read performs: a constant getter
never consults the container. -/
def PropBinding.read (c : Services) (b : PropBinding) : Except String JSValue × Nat :=
  match b.get with
  | .const v => (.ok v, 0)
  | .resolveOnRead t => (Container.resolve c t, 1)

/-- `n` successive reads of the decorated property against container state
`c`: the list of results and the total number of `resolve` calls. -/
def PropBinding.readN (c : Services) (b : PropBinding) :
    Nat → List (Except String JSValue) × Nat
  | 0 => ([], 0)
  | n + 1 =>
    let r := b.read c
    let rs := b.readN c n
    (r.1 :: rs.1, r.2 + rs.2)


/-!
## The demo program

The rest of `index.ts` declares, in this order, the decorated classes
`ConfigService, ConsoleLoggerService, FileLoggerService, CloudLoggerService,
LoggerFactory, UserService, Main`, then runs
`const main = container.resolve(Main); main.init()`.
-/

/-- The class identities declared by the demo program, in declaration
order. -/
inductive DemoClass where
  | ConfigService
  | ConsoleLoggerService
  | FileLoggerService
  | CloudLoggerService
  | LoggerFactory
  | UserService
  | Main
deriving DecidableEq, Repr

/-- The class name, standing in for the `${token}` stringification in the
lookup-error message. -/
def DemoClass.name : DemoClass → String
  | .ConfigService => "ConfigService"
  | .ConsoleLoggerService => "ConsoleLoggerService"
  | .FileLoggerService => "FileLoggerService"
  | .CloudLoggerService => "CloudLoggerService"
  | .LoggerFactory => "LoggerFactory"
  | .UserService => "UserService"
  | .Main => "Main"

/-- Which of the three `ILogger` singletons a reference points at. -/
inductive LoggerKind where
  | console
  | file
  | cloud
deriving DecidableEq, Repr

/-- `log(message)` of the three logger classes: each prints one line
`[console]: ...` / `[file]: ...` / `[cloud]: ...` via `console.log`. -/
def LoggerKind.log : LoggerKind → String → String
  | .console, message => "[console]: " ++ message
  | .file, message => "[file]: " ++ message
  | .cloud, message => "[cloud]: " ++ message

/-- The singleton instances the demo program constructs.  A `UserService`
instance carries the `loggerService` its constructor obtained from
`this.loggerFactory.getLogger()`; the others carry no per-instance state
(their injected properties live on the prototype, captured at decoration
time). -/
inductive DemoInstance where
  | configService
  | consoleLogger
  | fileLogger
  | cloudLogger
  | loggerFactory
  | userService (loggerService : LoggerKind)
  | mainInst
deriving DecidableEq, Repr

/-- `resolve` specialised to the demo container.  Every registered demo
value is an object instance, hence truthy, so `if (!service)` fires exactly
on a missing entry (`Map.get` = `undefined`). -/
def demoResolve (c : List (DemoClass × DemoInstance)) (token : DemoClass) :
    Except String DemoInstance :=
  match mapGet c token with
  | some service => Except.ok service
  | none => Except.error ("Service not found for token: " ++ token.name)

namespace ConfigService

/-- `getEnvConfig(configName) { return 'console' }` -/
def getEnvConfig (configName : String) : String := "console"

/-- `getDbConfig(configName) { return 'console'; }` -/
def getDbConfig (configName : String) : String := "console"

end ConfigService

namespace LoggerFactory

/-- `getLogger()`:
`const config = this.configService.getEnvConfig('loggerConfig');`
followed by a `switch` over `config` on `'console' | 'file' | 'cloud'`,
`default: throw new Error('unknown logger service instance')`.
`envConfig` is the `getEnvConfig` method of the injected config service,
so that the scenario "the configuration reports another value, nothing else
changes" is expressible; the program itself passes
`ConfigService.getEnvConfig`. -/
def getLogger (envConfig : String → String) : Except String LoggerKind :=
  let config := envConfig "loggerConfig"
  if config = "console" then Except.ok LoggerKind.console
  else if config = "file" then Except.ok LoggerKind.file
  else if config = "cloud" then Except.ok LoggerKind.cloud
  else Except.error "unknown logger service instance"

end LoggerFactory

namespace UserService

/-- `login(username, password) { this.loggerService.log(...) }` -/
def login (loggerService : LoggerKind) (username password : String) : String :=
  loggerService.log ("logging in user with " ++ username ++ " and " ++ password)

/-- `updateUserName(newUsername) { this.loggerService.log(...) }` -/
def updateUserName (loggerService : LoggerKind) (newUsername : String) : String :=
  loggerService.log ("updating username " ++ newUsername)

/-- `logOut() { this.loggerService.log('logging out user') }` -/
def logOut (loggerService : LoggerKind) : String :=
  loggerService.log "logging out user"

end UserService

/-- Method dispatch `someInstance.login(...)`: defined when the receiver is a
`UserService` instance, a `TypeError` otherwise (the JS behaviour of calling
a missing method). -/
def DemoInstance.login : DemoInstance → String → String → Except String String
  | .userService loggerService, username, password =>
    Except.ok (UserService.login loggerService username password)
  | _, _, _ => Except.error "TypeError: login is not a function"

/-- Method dispatch `someInstance.updateUserName(...)`. -/
def DemoInstance.updateUserName : DemoInstance → String → Except String String
  | .userService loggerService, newUsername =>
    Except.ok (UserService.updateUserName loggerService newUsername)
  | _, _ => Except.error "TypeError: updateUserName is not a function"

/-- Method dispatch `someInstance.logOut()`. -/
def DemoInstance.logOut : DemoInstance → Except String String
  | .userService loggerService => Except.ok (UserService.logOut loggerService)
  | _ => Except.error "TypeError: logOut is not a function"

/-- `init() { this.userService.login('john', 'john@123');
this.userService.updateUserName('bob'); this.userService.logOut() }` —
`this.userService` reads the getter `@Inject(UserService)` installed, which
returns the instance captured when `Main`'s class body was evaluated.
The result lists the `console.log` lines in emission order. -/
def Main.initRun (userService : DemoInstance) : Except String (List String) := do
  let l1 ← userService.login "john" "john@123"
  let l2 ← userService.updateUserName "bob"
  let l3 ← userService.logOut
  pure [l1, l2, l3]

/-- The whole demo program, evaluated top to bottom exactly as the decorated
declarations run:

1. `@Injectable` on `ConfigService`, `ConsoleLoggerService`,
   `FileLoggerService`, `CloudLoggerService` constructs and registers each;
2. `LoggerFactory`'s class body runs its four `@Inject` decorators (eager
   resolves), then `@Injectable` registers `new LoggerFactory`;
3. `UserService`'s body runs `@Inject(LoggerFactory)`, then `@Injectable`
   evaluates `new UserService`, whose constructor stores
   `this.loggerFactory.getLogger()`;
4. `Main`'s body runs `@Inject(UserService)`, then `@Injectable` registers
   `new Main`;
5. `const main = container.resolve(Main); main.init()`.

`envConfig` is what `configService.getEnvConfig` reports (the source's is
`ConfigService.getEnvConfig`).  The value is the list of output lines; an
`Except.error` is an uncaught exception. -/
def demoEval (envConfig : String → String) : Except String (List String) := do
  let c1 := Container.register ([] : List (DemoClass × DemoInstance))
    DemoClass.ConfigService DemoInstance.configService
  let c2 := Container.register c1 DemoClass.ConsoleLoggerService DemoInstance.consoleLogger
  let c3 := Container.register c2 DemoClass.FileLoggerService DemoInstance.fileLogger
  let c4 := Container.register c3 DemoClass.CloudLoggerService DemoInstance.cloudLogger
  let _configService ← demoResolve c4 DemoClass.ConfigService
  let _consoleLogger ← demoResolve c4 DemoClass.ConsoleLoggerService
  let _fileLogger ← demoResolve c4 DemoClass.FileLoggerService
  let _cloudLogger ← demoResolve c4 DemoClass.CloudLoggerService
  let c5 := Container.register c4 DemoClass.LoggerFactory DemoInstance.loggerFactory
  let _loggerFactory ← demoResolve c5 DemoClass.LoggerFactory
  let loggerService ← LoggerFactory.getLogger envConfig
  let c6 := Container.register c5 DemoClass.UserService (DemoInstance.userService loggerService)
  let userService ← demoResolve c6 DemoClass.UserService
  let c7 := Container.register c6 DemoClass.Main DemoInstance.mainInst
  let mainResolved ← demoResolve c7 DemoClass.Main
  match mainResolved with
  | DemoInstance.mainInst => Main.initRun userService
  | _ => Except.error "TypeError: init is not a function"

section MapLemmas

variable {κ α : Type} [DecidableEq κ]

theorem mapGet_mapSet_same (c : List (κ × α)) (t : κ) (v : α) :
    mapGet (mapSet c t v) t = some v := by
  induction c with
  | nil => simp [mapSet, mapGet]
  | cons hd tl ih =>
    obtain ⟨k, w⟩ := hd
    by_cases hk : k = t
    · simp [mapSet, mapGet, hk]
    · simp [mapSet, mapGet, hk, ih]

theorem mapGet_mapSet_other (c : List (κ × α)) (t t' : κ) (v : α)
    (h : t' ≠ t) : mapGet (mapSet c t v) t' = mapGet c t' := by
  have h' : ¬ t = t' := fun hh => h hh.symm
  induction c with
  | nil => simp [mapSet, mapGet, h']
  | cons hd tl ih =>
    obtain ⟨k, w⟩ := hd
    by_cases hk : k = t
    · subst hk
      simp [mapSet, mapGet, h']
    · simp only [mapSet, if_neg hk, mapGet]
      by_cases hk' : k = t'
      · simp [hk']
      · simp [hk', ih]

theorem mem_mapSet_of_mem {c : List (κ × α)} {t : κ} {v : α}
    {p : κ × α} (h : p ∈ mapSet c t v) : p ∈ c ∨ (p.1 = t ∧ p.2 = v) := by
  induction c with
  | nil =>
    simp only [mapSet, List.mem_singleton] at h
    subst h
    exact Or.inr ⟨rfl, rfl⟩
  | cons hd tl ih =>
    obtain ⟨k, w⟩ := hd
    by_cases hk : k = t
    · simp only [mapSet, if_pos hk, List.mem_cons] at h
      rcases h with h | h
      · subst h
        exact Or.inr ⟨rfl, rfl⟩
      · exact Or.inl (List.mem_cons_of_mem _ h)
    · simp only [mapSet, if_neg hk, List.mem_cons] at h
      rcases h with h | h
      · exact Or.inl (List.mem_cons.2 (Or.inl h))
      · rcases ih h with h' | h'
        · exact Or.inl (List.mem_cons_of_mem _ h')
        · exact Or.inr h'

theorem mapSet_keys_nodup (c : List (κ × α)) (t : κ) (v : α)
    (h : (c.map Prod.fst).Nodup) : ((mapSet c t v).map Prod.fst).Nodup := by
  induction c with
  | nil => simp [mapSet]
  | cons hd tl ih =>
    obtain ⟨k, w⟩ := hd
    simp only [List.map_cons, List.nodup_cons] at h
    by_cases hk : k = t
    · subst hk
      simpa [mapSet, List.nodup_cons] using h
    · have htl := ih h.2
      simp only [mapSet, if_neg hk, List.map_cons, List.nodup_cons]
      refine ⟨?_, htl⟩
      intro hmem
      rcases List.mem_map.1 hmem with ⟨⟨k', v'⟩, hmem', hfst⟩
      rcases mem_mapSet_of_mem hmem' with hcase | hcase
      · exact h.1 (List.mem_map.2 ⟨(k', v'), hcase, hfst⟩)
      · exact hk (by rw [hfst.symm, hcase.1])

end MapLemmas

/-!
## Resolution helper lemmas
-/

theorem resolve_of_mapGet_none (c : Services) (t : Token) (h : mapGet c t = none) :
    Container.resolve c t = Except.error (lookupMsg t) := by
  simp [Container.resolve, h, JSValue.truthy]

theorem resolve_of_truthy (c : Services) (t : Token) (v : JSValue)
    (h : mapGet c t = some v) (hv : v.truthy = true) :
    Container.resolve c t = Except.ok v := by
  simp [Container.resolve, h, hv]

theorem resolve_of_falsy (c : Services) (t : Token) (v : JSValue)
    (h : mapGet c t = some v) (hv : v.truthy = false) :
    Container.resolve c t = Except.error (lookupMsg t) := by
  simp [Container.resolve, h, hv]

/-!
## Claims
-/

/-- Claim C1 (counterexample to the claim as stated): the clause "resolve
fails exactly when no entry exists for that identity" is false on the code:
after `register(T, null)` an entry for `T` exists in the store, yet `resolve`
throws the lookup error, because `resolve` tests the truthiness of the stored
value rather than the presence of the entry. -/
theorem resolve_falsy_entry_cex :
    mapGet (Container.register ([] : Services) 0 JSValue.vNull) 0 = some JSValue.vNull ∧
    Container.resolve (Container.register ([] : Services) 0 JSValue.vNull) 0 =
      Except.error (lookupMsg 0) :=
  ⟨rfl, rfl⟩

/-- Claim C1 (amended): `resolve` on an identity with no entry always fails
with the lookup error naming that identity and never returns a value — in
particular never a default, `null` or `undefined`; and `resolve` fails
exactly when the stored value for that identity is absent or falsy (not
"exactly when no entry exists"). -/
theorem resolve_unregistered_lookup_error (c : Services) (t : Token) :
    (mapGet c t = none → Container.resolve c t = Except.error (lookupMsg t)) ∧
    (∀ v : JSValue, Container.resolve c t = Except.ok v →
      v.truthy = true ∧ v ≠ JSValue.vNull ∧ v ≠ JSValue.vUndefined) ∧
    (Container.resolve c t = Except.error (lookupMsg t) ↔
      ((mapGet c t).getD JSValue.vUndefined).truthy = false) := by
  by_cases hs : ((mapGet c t).getD JSValue.vUndefined).truthy
  · have hres : Container.resolve c t =
        Except.ok ((mapGet c t).getD JSValue.vUndefined) := by
      simp [Container.resolve, hs]
    refine ⟨?_, ?_, ?_⟩
    · intro h
      rw [h] at hs
      simp [JSValue.truthy] at hs
    · intro v hv
      rw [hres] at hv
      have hv' : (mapGet c t).getD JSValue.vUndefined = v := by
        injection hv
      refine ⟨hv' ▸ hs, ?_, ?_⟩ <;> rintro rfl <;> rw [hv'] at hs <;>
        simp [JSValue.truthy] at hs
    · rw [hres]
      simp [hs]
  · have hs' : ((mapGet c t).getD JSValue.vUndefined).truthy = false := by
      simpa using hs
    have hres : Container.resolve c t = Except.error (lookupMsg t) := by
      simp [Container.resolve, hs']
    refine ⟨fun _ => hres, ?_, ?_⟩
    · intro v hv
      rw [hres] at hv
      exact absurd hv (by simp)
    · simp [hres, hs']

/-- Claim C1, witness: resolving token `0` in the empty container fails with
the lookup error naming it. -/
theorem resolve_unregistered_lookup_error_w :
    Container.resolve ([] : Services) 0 = Except.error (lookupMsg 0) :=
  (resolve_unregistered_lookup_error ([] : Services) 0).1 rfl

/-- Claim C2: applying the `Inject` hook to a property while the target
identity has no Registry entry fails with the lookup error during the
decoration itself (class-definition time) — the failure is the decorator's
result, not deferred to a property read; no accessor is installed. -/
theorem inject_unregistered_fails_eagerly (c : Services) (t : Token) (pk : String)
    (h : mapGet c t = none) :
    InjectApply c t pk = (Except.error (lookupMsg t), 1) := by
  simp [InjectApply, resolve_of_mapGet_none c t h]

/-- Claim C2, witness: decorating property `"configService"` against the
empty container fails at decoration time. -/
theorem inject_unregistered_fails_eagerly_w :
    InjectApply ([] : Services) 0 "configService" = (Except.error (lookupMsg 0), 1) :=
  inject_unregistered_fails_eagerly ([] : Services) 0 "configService" rfl

/-- Claim C3: when decoration succeeds, `Inject` performs exactly one resolve
(eagerly, while the owning class body is evaluated), installs a constant
getter holding the resolved instance, and every later read — however many,
and whatever the container state then is — returns that same fixed instance
while performing zero further resolutions. -/
theorem inject_resolves_once (c : Services) (t : Token) (pk : String) (v : JSValue)
    (h : Container.resolve c t = Except.ok v) :
    InjectApply c t pk = (Except.ok ⟨pk, Getter.const v⟩, 1) ∧
    ∀ (c' : Services) (n : Nat),
      (PropBinding.readN c' ⟨pk, Getter.const v⟩ n).1 =
        List.replicate n (Except.ok v) ∧
      (PropBinding.readN c' ⟨pk, Getter.const v⟩ n).2 = 0 := by
  refine ⟨by simp [InjectApply, h], ?_⟩
  intro c' n
  induction n with
  | zero => simp [PropBinding.readN]
  | succ m ih =>
    simp [PropBinding.readN, PropBinding.read, List.replicate_succ, ih.1, ih.2]

/-- Claim C3, witness: decorating `"dep"` with a registered object resolves
once; three subsequent reads all return that object and perform no
resolution. -/
theorem inject_resolves_once_w :
    InjectApply (Container.register ([] : Services) 0 (JSValue.vObj 5)) 0 "dep" =
      (Except.ok ⟨"dep", Getter.const (JSValue.vObj 5)⟩, 1) ∧
    (PropBinding.readN ([] : Services) ⟨"dep", Getter.const (JSValue.vObj 5)⟩ 3).1 =
      List.replicate 3 (Except.ok (JSValue.vObj 5)) ∧
    (PropBinding.readN ([] : Services) ⟨"dep", Getter.const (JSValue.vObj 5)⟩ 3).2 = 0 := by
  have h := inject_resolves_once (Container.register ([] : Services) 0 (JSValue.vObj 5))
    0 "dep" (JSValue.vObj 5) rfl
  exact ⟨h.1, (h.2 ([] : Services) 3).1, (h.2 ([] : Services) 3).2⟩

/-- Claim C4: for a class identity registered with an object instance and not
re-registered since (later registrations of other identities are allowed),
every `resolve` call returns that very instance — the same object by
reference — and leaves the Registry store unchanged. -/
theorem resolve_returns_registered_object (c : Services) (t : Token) (oid : Nat)
    (t' : Token) (w : JSValue) (h : t' ≠ t) :
    Container.resolveSt (Container.register c t (JSValue.vObj oid)) t =
      (Except.ok (JSValue.vObj oid), Container.register c t (JSValue.vObj oid)) ∧
    Container.resolve
        (Container.register (Container.register c t (JSValue.vObj oid)) t' w) t =
      Except.ok (JSValue.vObj oid) := by
  simp only [Container.register]
  constructor
  · have h1 := mapGet_mapSet_same c t (JSValue.vObj oid)
    have h2 := resolve_of_truthy _ t (JSValue.vObj oid) h1 rfl
    simp [Container.resolveSt, h2]
  · have h1 : mapGet (mapSet (mapSet c t (JSValue.vObj oid)) t' w) t =
        some (JSValue.vObj oid) := by
      rw [mapGet_mapSet_other _ t' t w (Ne.symm h)]
      exact mapGet_mapSet_same c t _
    exact resolve_of_truthy _ t _ h1 rfl

/-- Claim C4, witness: token `0` registered with object `7` resolves to
object `7` with the store unchanged, also after token `1` is registered. -/
theorem resolve_returns_registered_object_w :
    Container.resolveSt (Container.register ([] : Services) 0 (JSValue.vObj 7)) 0 =
      (Except.ok (JSValue.vObj 7), Container.register ([] : Services) 0 (JSValue.vObj 7)) ∧
    Container.resolve (Container.register
        (Container.register ([] : Services) 0 (JSValue.vObj 7)) 1 (JSValue.vObj 8)) 0 =
      Except.ok (JSValue.vObj 7) :=
  resolve_returns_registered_object ([] : Services) 0 7 1 (JSValue.vObj 8) (by decide)

/-- Claim C5: registering a second (distinct) instance under the same
identity overwrites the first: `resolve` now returns the second instance and
can no longer return the first, the store maps the identity to the second
instance, and key uniqueness is preserved. -/
theorem register_overwrites (c : Services) (t : Token) (a b : Nat) (hab : a ≠ b) :
    Container.resolve
        (Container.register (Container.register c t (JSValue.vObj a)) t (JSValue.vObj b)) t
      = Except.ok (JSValue.vObj b) ∧
    Container.resolve
        (Container.register (Container.register c t (JSValue.vObj a)) t (JSValue.vObj b)) t
      ≠ Except.ok (JSValue.vObj a) ∧
    mapGet (Container.register (Container.register c t (JSValue.vObj a)) t (JSValue.vObj b)) t
      = some (JSValue.vObj b) ∧
    ((c.map Prod.fst).Nodup →
      ((Container.register (Container.register c t (JSValue.vObj a)) t
        (JSValue.vObj b)).map Prod.fst).Nodup) := by
  simp only [Container.register]
  have hget : mapGet (mapSet (mapSet c t (JSValue.vObj a)) t (JSValue.vObj b)) t =
      some (JSValue.vObj b) := mapGet_mapSet_same _ t _
  have hres := resolve_of_truthy _ t _ hget rfl
  refine ⟨hres, ?_, hget, ?_⟩
  · rw [hres]
    intro hcontra
    have hba : JSValue.vObj b = JSValue.vObj a := by injection hcontra
    have hba' : b = a := by injection hba
    exact hab hba'.symm
  · intro hnodup
    exact mapSet_keys_nodup _ t _ (mapSet_keys_nodup c t _ hnodup)

/-- Claim C5, witness: registering objects `1` then `2` under token `0` of
the empty container leaves `resolve` returning object `2`, never object `1`. -/
theorem register_overwrites_w :
    Container.resolve
        (Container.register (Container.register ([] : Services) 0 (JSValue.vObj 1)) 0
          (JSValue.vObj 2)) 0 = Except.ok (JSValue.vObj 2) ∧
    Container.resolve
        (Container.register (Container.register ([] : Services) 0 (JSValue.vObj 1)) 0
          (JSValue.vObj 2)) 0 ≠ Except.ok (JSValue.vObj 1) :=
  ⟨(register_overwrites ([] : Services) 0 1 2 (by decide)).1,
   (register_overwrites ([] : Services) 0 1 2 (by decide)).2.1⟩

/-- Claim C6: the `Injectable` hook invokes the zero-argument constructor
exactly once; on success exactly the constructed instance is registered under
the class's own identity, and on a constructor exception the failure
propagates with the Registry left unchanged — no partial registration. -/
theorem injectable_constructs_and_registers (c : Services) (cls : Token)
    (inst : JSValue) (e : String) :
    InjectableApply c cls (Except.ok inst) =
      ((Except.ok (), Container.register c cls inst), 1) ∧
    mapGet ((InjectableApply c cls (Except.ok inst)).1).2 cls = some inst ∧
    InjectableApply c cls (Except.error e) = ((Except.error e, c), 1) := by
  refine ⟨rfl, ?_, rfl⟩
  simp [InjectableApply, Container.register, mapGet_mapSet_same]

/-- Claim C7: with the declared registration order and
`getEnvConfig("loggerConfig") = "console"`, resolving `Main` and running
`init()` emits exactly the three `[console]:` lines, in order. -/
theorem demo_console_output :
    ConfigService.getEnvConfig "loggerConfig" = "console" ∧
    demoEval ConfigService.getEnvConfig = Except.ok
      ["[console]: logging in user with john and john@123",
       "[console]: updating username bob",
       "[console]: logging out user"] :=
  ⟨rfl, rfl⟩

/-- Claim C8: with the configuration reporting `"file"` and nothing else
changed, `getLogger` selects the file logger and the same scenario emits the
three lines with the `[file]:` prefix — the selection follows the
configuration result, not declaration order. -/
theorem demo_file_output :
    LoggerFactory.getLogger (fun _ => "file") = Except.ok LoggerKind.file ∧
    demoEval (fun _ => "file") = Except.ok
      ["[file]: logging in user with john and john@123",
       "[file]: updating username bob",
       "[file]: logging out user"] :=
  ⟨rfl, rfl⟩

/-- Claim C9 (counterexample to the claim as stated): the `default:` branch
of `getLogger` throws the fixed message `unknown logger service instance` for
every unrecognized configuration value — two distinct unrecognized values
produce the identical message, so the message does not identify the value. -/
theorem getLogger_fixed_message_cex :
    LoggerFactory.getLogger (fun _ => "smoke") =
      Except.error "unknown logger service instance" ∧
    LoggerFactory.getLogger (fun _ => "fog") =
      Except.error "unknown logger service instance" ∧
    ("smoke" : String) ≠ "fog" :=
  ⟨rfl, rfl, by decide⟩

/-- Claim C9 (amended): for every configuration value other than
`"console"`, `"file"` and `"cloud"`, `getLogger` fails with a
ConfigurationError carrying the fixed message
`unknown logger service instance` (which does not name the value), and never
silently returns a default logger. -/
theorem getLogger_unrecognized_errors (cfg : String)
    (h1 : cfg ≠ "console") (h2 : cfg ≠ "file") (h3 : cfg ≠ "cloud") :
    LoggerFactory.getLogger (fun _ => cfg) =
      Except.error "unknown logger service instance" ∧
    ∀ k : LoggerKind, LoggerFactory.getLogger (fun _ => cfg) ≠ Except.ok k := by
  have hres : LoggerFactory.getLogger (fun _ => cfg) =
      Except.error "unknown logger service instance" := by
    simp [LoggerFactory.getLogger, h1, h2, h3]
  refine ⟨hres, fun k hk => ?_⟩
  rw [hres] at hk
  exact absurd hk (by simp)

/-- Claim C9, witness: the unrecognized value `"smoke"` makes `getLogger`
fail with the fixed message. -/
theorem getLogger_unrecognized_errors_w :
    LoggerFactory.getLogger (fun _ => "smoke") =
      Except.error "unknown logger service instance" :=
  (getLogger_unrecognized_errors "smoke" (by decide) (by decide) (by decide)).1

/-- Claim C10: `resolve` tests the stored value for truthiness, not the
presence of an entry: registering any falsy instance (`null`, `undefined`,
`false`, `0`, `""`) leaves an entry in the store, yet `resolve` throws the
lookup error for it. -/
theorem resolve_falsy_registered_fails (c : Services) (t : Token) (v : JSValue)
    (h : v.truthy = false) :
    mapGet (Container.register c t v) t = some v ∧
    Container.resolve (Container.register c t v) t = Except.error (lookupMsg t) := by
  have hget : mapGet (mapSet c t v) t = some v := mapGet_mapSet_same c t v
  exact ⟨hget, resolve_of_falsy _ t v hget h⟩

/-- Claim C10, witness: registering the empty string under token `3` leaves
an entry, yet `resolve 3` fails with the lookup error. -/
theorem resolve_falsy_registered_fails_w :
    mapGet (Container.register ([] : Services) 3 (JSValue.vStr "")) 3 =
      some (JSValue.vStr "") ∧
    Container.resolve (Container.register ([] : Services) 3 (JSValue.vStr "")) 3 =
      Except.error (lookupMsg 3) :=
  resolve_falsy_registered_fails ([] : Services) 3 (JSValue.vStr "") rfl
